import Mathlib

/-!
Verification of the adaptive scaffolding decision engine and skill-selection
pipeline of the ai-lesson-generation repository.

The Python source is shallowly embedded:
* Python ints are `Int`/`Nat`; Python float arithmetic on small integer inputs
  (time budgets, step counts, the literals 0.3/0.4/0.5/0.7/0.8/1.2) is modelled
  exactly with `Rat` (all quantities involved are exactly representable and the
  comparisons are far from float-rounding boundaries).
* Python `random.random()` draws are explicit `Rat` parameters and
  `random.choice` takes an index from an injected stream `Nat → Nat`, so that
  theorems quantify over every possible randomness.
* A raised exception is an `Except.error`; a `try/except` wrapper is a `match`
  on the `Except` value.
External collaborators (the LLM content generator, the vector retriever, the
database) are out of scope per the specification and appear only as abstract
inputs (`Except` outcomes, generated-content records).
-/

/-- Mirror of `app.models.lesson.SkillSpec` (a pydantic model of plain
strings). -/
structure SkillSpec where
  name : String
  color : String
  blockType : String
  exampleQuestion : String
  description : String
  iconUrl : String
  mediaSuggestion : Option String
deriving Repr, DecidableEq, Inhabited

/-- Mirror of `app.models.lesson.GenerationContext`. -/
structure GenerationContext where
  topic : String
  grade : String
  subject : String
  curriculum : String
  difficulty : Rat
  curriculumContext : Option String
deriving Repr, DecidableEq, Inhabited

/-- Python truthiness of an `Optional[int]`: `None` and `0` are falsy. -/
def pyTruthy : Option Int → Bool
  | none => false
  | some v => v != 0

/-- Python `available_time_minutes / total_steps` (true division of ints);
raises `ZeroDivisionError` when `total_steps == 0`
(`scaffolding_assessor.py` line 61, the unused `avg_time_per_step`). -/
def divByStep (t : Int) (steps : Nat) : Except Unit Rat :=
  if steps = 0 then .error () else .ok ((t : Rat) / (steps : Rat))

/-- Mirror of `scaffolding_assessor.py` line 63:
`(available_time_minutes - sequence_position * 10) / remaining_steps` when
`remaining_steps > 0`, else `10`. -/
def timePerRemainingStep (t : Int) (seqPos totalSteps : Nat) : Rat :=
  let remaining : Int := (totalSteps : Int) - (seqPos : Int)
  if 0 < remaining then ((t : Rat) - (seqPos : Rat) * 10) / (remaining : Rat)
  else 10

/-- Membership in `ScaffoldingAssessor.scaffold_required`
(`{Red: [Hypothesise, Judge, Combine, Imagine], Orange: [Target Vocabulary,
Verbs, Adjectives], Blue: [Categorise, Sequence, Rank]}`). -/
def scaffoldRequiredSet (color name : String) : Bool :=
  (color == "Red" &&
    (name == "Hypothesise" || name == "Judge" || name == "Combine" ||
      name == "Imagine")) ||
  (color == "Orange" &&
    (name == "Target Vocabulary" || name == "Verbs" || name == "Adjectives")) ||
  (color == "Blue" &&
    (name == "Categorise" || name == "Sequence" || name == "Rank"))

/-- Membership in `ScaffoldingAssessor.simple_prompt_candidates`
(`{Green: [Identify, Retrieve, Recognize, Extract], Yellow: [Explain,
Exemplify], Blue: [Compare]}`). -/
def simplePromptCandidate (color name : String) : Bool :=
  (color == "Green" &&
    (name == "Identify" || name == "Retrieve" || name == "Recognize" ||
      name == "Extract")) ||
  (color == "Yellow" && (name == "Explain" || name == "Exemplify")) ||
  (color == "Blue" && name == "Compare")

/-- Steps 2-7 of `ScaffoldingAssessor.should_use_full_scaffold`
(`scaffolding_assessor.py` lines 75-125), flattened first-match-wins:
required-scaffold skills, prompt-friendly variety (with the
at-least-one-scaffold guard), position bias, run-length variety,
subject-specific overrides, and the full-scaffold default.  `r3`/`r5` are the
`random.random()` draws of steps 3 and 5. -/
def scaffoldDecisionChain (skill : SkillSpec) (ctx : GenerationContext)
    (seqPos totalSteps prevScaffolds : Nat) (r3 r5 : Rat) : Bool :=
  if scaffoldRequiredSet skill.color skill.name then true
  else if simplePromptCandidate skill.color skill.name ∧ prevScaffolds = 0 then
    true
  else if simplePromptCandidate skill.color skill.name ∧ r3 < 2/5 then false
  else if seqPos = 0 ∧ (skill.color = "Yellow" ∨ skill.color = "Orange" ∨
      skill.color = "Red") then true
  else if (seqPos : Int) = (totalSteps : Int) - 1 ∧ skill.color = "Red" then
    true
  else if 2 ≤ prevScaffolds ∧ (skill.color = "Green" ∨ skill.color = "Blue") ∧
      r5 < 3/10 then false
  else if ctx.subject = "Mathematics" ∧ (skill.name = "Sequence" ∨
      skill.name = "Categorise" ∨ skill.name = "Compare") then true
  else if ctx.subject ≠ "Mathematics" ∧ ctx.subject = "English" ∧
      skill.color = "Orange" then true
  else if skill.blockType = "BuildIt" then true
  else true

/-- Body of `ScaffoldingAssessor.should_use_full_scaffold` inside the `try`:
the time-pressure gate (step 1) followed by the decision chain.  The division
`available_time_minutes / total_steps` can raise, which the wrapper below
catches. -/
def shouldUseFullScaffoldBody (skill : SkillSpec) (ctx : GenerationContext)
    (availableTime : Option Int) (seqPos totalSteps prevScaffolds : Nat)
    (r3 r5 : Rat) : Except Unit Bool :=
  if pyTruthy availableTime then
    match divByStep (availableTime.getD 0) totalSteps with
    | .error e => .error e
    | .ok _avgTimePerStep =>
      let tprs := timePerRemainingStep (availableTime.getD 0) seqPos totalSteps
      if tprs < 8 then .ok false
      else if skill.blockType = "BuildIt" ∧ tprs < 15 then .ok false
      else .ok (scaffoldDecisionChain skill ctx seqPos totalSteps prevScaffolds
        r3 r5)
  else
    .ok (scaffoldDecisionChain skill ctx seqPos totalSteps prevScaffolds r3 r5)

/-- `ScaffoldingAssessor.should_use_full_scaffold`: the whole body runs in a
`try` whose `except` returns `True` (default to scaffolding on error). -/
def shouldUseFullScaffold (skill : SkillSpec) (ctx : GenerationContext)
    (availableTime : Option Int) (seqPos totalSteps prevScaffolds : Nat)
    (r3 r5 : Rat) : Bool :=
  match shouldUseFullScaffoldBody skill ctx availableTime seqPos totalSteps
      prevScaffolds r3 r5 with
  | .ok b => b
  | .error _ => true

/-- `ScaffoldingAssessor.time_estimates` lookup with default `12`
(`self.time_estimates.get(skill.block_type, 12)`). -/
def timeEstimatesLookup (blockType : String) : Int :=
  if blockType = "MapIt" then 15
  else if blockType = "SayIt" then 10
  else if blockType = "BuildIt" then 20
  else if blockType = "Prompt" then 5
  else 12

/-- `ScaffoldingAssessor.estimate_activity_time`: lightweight prompts cost the
fixed `time_estimates["Prompt"] = 5`; scaffolds cost the per-block-type base
scaled by `int(base * 0.8)` / `int(base * 1.2)` at the difficulty extremes
(Python `int()` truncation; the scaled values here are positive, so floor). -/
def estimateActivityTime (useScaffold : Bool) (skill : SkillSpec)
    (ctx : GenerationContext) : Int :=
  if !useScaffold then 5
  else
    let base := timeEstimatesLookup skill.blockType
    if ctx.difficulty ≤ 3/10 then ⌊(base : Rat) * (4/5)⌋
    else if 7/10 ≤ ctx.difficulty then ⌊(base : Rat) * (6/5)⌋
    else base

/-- Mirror of `ScaffoldingAssessor._get_interaction_type`: per-color
interaction mode with a whole-class default. -/
def getInteractionType (skill : SkillSpec) : String :=
  if skill.color = "Green" then "think_pair_share"
  else if skill.color = "Blue" then "whole_class_discussion"
  else if skill.color = "Yellow" then "small_group_discussion"
  else if skill.color = "Orange" then "individual_then_share"
  else if skill.color = "Red" then "collaborative_thinking"
  else "whole_class_discussion"

/-- Payload of `ScaffoldingAssessor.generate_simple_prompt`.  The randomly
chosen question/follow-up/success-indicator template strings are not modelled:
no claim depends on the prompt text, only on the payload's existence, its
fixed duration and its interaction mode. -/
structure SimplePromptData where
  typeTag : String
  skillName : String
  durationMinutes : Int
  interactionType : String
deriving Repr, DecidableEq, Inhabited

/-- `ScaffoldingAssessor.generate_simple_prompt` (structure-level view): the
payload is produced synchronously, tagged `simple_prompt`, charged 5 minutes,
with the interaction type derived from the skill's color. -/
def generateSimplePrompt (skill : SkillSpec) (_ctx : GenerationContext) :
    SimplePromptData :=
  { typeTag := "simple_prompt"
    skillName := skill.name
    durationMinutes := 5
    interactionType := getInteractionType skill }

/-- One entry of the `scaffold_decisions` list built by
`EnhancedBlockGenerator._plan_scaffolding_strategy`. -/
structure ScaffoldDecision where
  skillName : String
  skillColor : String
  blockType : String
  useScaffold : Bool
  estimatedTime : Int
  promptData : Option SimplePromptData
  sequencePosition : Nat
  decisionFactors : List String
deriving Repr, DecidableEq, Inhabited

/-- Mirror of `EnhancedBlockGenerator._get_decision_factors`. -/
def getDecisionFactors (skill : SkillSpec) (useScaffold : Bool)
    (availableTime : Option Int) : List String :=
  if useScaffold then
    (if skill.blockType = "BuildIt" then
      ["BuildIt activities benefit from scaffolding"] else []) ++
    (if skill.color = "Orange" ∨ skill.color = "Red" then
      ["Advanced thinking skills need structure"] else []) ++
    (if skill.name = "Categorise" ∨ skill.name = "Sequence" ∨
        skill.name = "Hypothesise" then
      ["Complex skill requires guided practice"] else [])
  else
    (if (match availableTime with
        | some t => t != 0 && decide (t < 45)
        | none => false : Bool) then
      ["Time constraints favor discussion"] else []) ++
    (if skill.color = "Green" then
      ["Foundation skill works well with prompts"] else []) ++
    (if skill.name = "Identify" ∨ skill.name = "Retrieve" ∨
        skill.name = "Explain" then
      ["Skill suitable for open discussion"] else [])

/-- The `avg_time_per_remaining` of `_plan_scaffolding_strategy` lines
143-145: `(available_time_minutes - sum of recorded estimates) divided by the
remaining skill count`, `0` when no skills remain. -/
def strictAvgShare (availableTime : Option Int) (n i : Nat)
    (sumEst : Int) : Rat :=
  let remainingSkills : Int := (n : Int) - (i : Int)
  let remainingTime : Rat := ((availableTime.getD 0 : Int) : Rat) -
    (sumEst : Rat)
  if 0 < remainingSkills then remainingTime / (remainingSkills : Rat) else 0

/-- The strict-mode override test of `_plan_scaffolding_strategy` lines
141-151: under `time_flexibility == "strict"` with a truthy budget, a
full-scaffold decision flips to a prompt exactly when its estimate exceeds
the average remaining time per remaining step. -/
def strictFlip (availableTime : Option Int) (flex : String) (n i : Nat)
    (sumEst : Int) (est0 : Int) (use0 : Bool) : Bool :=
  if flex = "strict" ∧ pyTruthy availableTime then
    decide (strictAvgShare availableTime n i sumEst < (est0 : Rat)) && use0
  else false

/-- Loop body of `EnhancedBlockGenerator._plan_scaffolding_strategy`
(`enhanced_block_generator.py` lines 117-168): assess each skill, then under
`time_flexibility == "strict"` with a (truthy) time budget, flip a
full-scaffold decision to a prompt when its estimate exceeds the average
remaining time per remaining step.  State: position `i`, prior full-scaffold
count `prev`, and `sumEst`, the sum of already-recorded estimates.  The
assessor's two random draws at position `i` are `rng (2*i)` and
`rng (2*i+1)`.  `decideOne` is the body for one skill; `planLoop` folds it
over the remaining skills. -/
def decideOne (ctx : GenerationContext) (availableTime : Option Int)
    (flex : String) (n : Nat) (rng : Nat → Rat) (i prev : Nat) (sumEst : Int)
    (skill : SkillSpec) : ScaffoldDecision :=
  let use0 := shouldUseFullScaffold skill ctx availableTime i n prev
    (rng (2*i)) (rng (2*i+1))
  let est0 := estimateActivityTime use0 skill ctx
  let flip : Bool := strictFlip availableTime flex n i sumEst est0 use0
  let use1 := if flip then false else use0
  let est1 := if flip then estimateActivityTime false skill ctx else est0
  let promptData1 : Option SimplePromptData :=
    if use1 then none else some (generateSimplePrompt skill ctx)
  { skillName := skill.name
    skillColor := skill.color
    blockType := skill.blockType
    useScaffold := use1
    estimatedTime := est1
    promptData := promptData1
    sequencePosition := i
    decisionFactors := getDecisionFactors skill use1 availableTime }

def planLoop (ctx : GenerationContext) (availableTime : Option Int)
    (flex : String) (n : Nat) (rng : Nat → Rat) :
    List SkillSpec → Nat → Nat → Int → List ScaffoldDecision
  | [], _, _, _ => []
  | skill :: rest, i, prev, sumEst =>
    let d := decideOne ctx availableTime flex n rng i prev sumEst skill
    d :: planLoop ctx availableTime flex n rng rest (i+1)
      (prev + (if d.useScaffold then 1 else 0)) (sumEst + d.estimatedTime)

/-- `EnhancedBlockGenerator._plan_scaffolding_strategy`: fold the loop over
the skills with `total_steps = len(skills)`. -/
def planScaffoldingStrategy (skills : List SkillSpec)
    (ctx : GenerationContext) (availableTime : Option Int) (flex : String)
    (rng : Nat → Rat) : List ScaffoldDecision :=
  planLoop ctx availableTime flex skills.length rng skills 0 0 0

/-- Result of `ScaffoldingAssessor.get_scaffolding_summary`.  The
`scaffoldShare` field is `scaffold_ratio` in the source. -/
structure ScaffoldingSummary where
  totalActivities : Nat
  fullScaffolds : Nat
  simplePrompts : Nat
  totalTimeEstimate : Int
  avgTimePerActivity : Rat
  scaffoldShare : Rat
  decisions : List ScaffoldDecision
deriving Repr, DecidableEq, Inhabited

/-- `ScaffoldingAssessor.get_scaffolding_summary`: counts of full scaffolds
and simple prompts over the decision list, plus the given running total. -/
def getScaffoldingSummary (decisions : List ScaffoldDecision)
    (totalTime : Int) : ScaffoldingSummary :=
  let full := (decisions.filter (fun d => d.useScaffold)).length
  { totalActivities := decisions.length
    fullScaffolds := full
    simplePrompts := decisions.length - full
    totalTimeEstimate := totalTime
    avgTimePerActivity := if decisions.length = 0 then 0
      else (totalTime : Rat) / (decisions.length : Rat)
    scaffoldShare := if decisions.length = 0 then 0
      else (full : Rat) / (decisions.length : Rat)
    decisions := decisions }

/-- Shape-level view of `app.models.responses.LessonBlock`: the `type` field
(named `blockType` here) and the skill it carries.  Title, description, steps
and supporting question of full-scaffold blocks come from the external LLM
collaborator, which the specification scopes out. -/
structure LessonBlockT where
  blockType : String
  skillName : String
deriving Repr, DecidableEq, Inhabited

/-- Block assembly per decision in
`EnhancedBlockGenerator.generate_adaptive_lesson_blocks`: a full-scaffold
block keeps the skill's block type; a lightweight block has type `Prompt`. -/
def blockForDecision (skill : SkillSpec) (d : ScaffoldDecision) :
    LessonBlockT :=
  if d.useScaffold then { blockType := skill.blockType, skillName := skill.name }
  else { blockType := "Prompt", skillName := skill.name }

/-- `EnhancedBlockGenerator.generate_adaptive_lesson_blocks` (planning and
assembly skeleton): plan the decisions, build one block per (skill, decision)
pair in position order, accumulate the total estimated time, and produce the
scaffolding summary from the same decision list. -/
def generateAdaptiveLessonBlocks (skills : List SkillSpec)
    (ctx : GenerationContext) (availableTime : Option Int) (flex : String)
    (rng : Nat → Rat) : List LessonBlockT × ScaffoldingSummary :=
  let decisions := planScaffoldingStrategy skills ctx availableTime flex rng
  let blocks := (skills.zip decisions).map (fun p => blockForDecision p.1 p.2)
  let totalTime := (decisions.map (fun d => d.estimatedTime)).sum
  (blocks, getScaffoldingSummary decisions totalTime)

/-- Python `str.strip()`: drop leading and trailing whitespace. -/
def pyStrip (s : String) : String :=
  ⟨((s.data.dropWhile Char.isWhitespace).reverse.dropWhile
    Char.isWhitespace).reverse⟩

/-- Structured content returned by the LLM for a full-scaffold block, as the
validators see it: `Option` encodes a missing dict key.  (The Python
`isinstance` checks are subsumed by this typed model.) -/
structure GeneratedContent where
  title : Option String
  description : Option String
  steps : Option (List String)
  supportingQuestion : Option String
  complexityLevel : Option String
deriving Repr, DecidableEq, Inhabited

/-- `EnhancedBlockGenerator._validate_generated_content`
(`enhanced_block_generator.py` lines 393-405): all four required fields must
be present, the stripped title must have at least 5 characters and there must
be at least 2 steps.  It performs no length check on the description or the
supporting question. -/
def enhancedValidateGeneratedContent (c : GeneratedContent) :
    Except String Unit :=
  match c.title with
  | none => .error "Generated content missing required field: title"
  | some title =>
    match c.description with
    | none => .error "Generated content missing required field: description"
    | some _desc =>
      match c.steps with
      | none => .error "Generated content missing required field: steps"
      | some steps =>
        match c.supportingQuestion with
        | none =>
          .error "Generated content missing required field: supporting_question"
        | some _sq =>
          if (pyStrip title).length < 5 then
            .error "Title must be a non-empty string with at least 5 characters"
          else if steps.length < 2 then
            .error "Steps must be a list with at least 2 items"
          else .ok ()

/-- `BlockGenerator._validate_generated_content` (`block_generator.py` lines
282-316): presence of the four required fields, stripped title length at
least 5, stripped description length at least 20, at least 2 steps, stripped
supporting question length at least 10, and a valid complexity level when one
is present.  (The per-block-type `isinstance` list checks are type-level in
this embedding.) -/
def baseValidateGeneratedContent (c : GeneratedContent) (_blockType : String) :
    Except String Unit :=
  match c.title with
  | none => .error "Generated content missing required field: title"
  | some title =>
    match c.description with
    | none => .error "Generated content missing required field: description"
    | some desc =>
      match c.steps with
      | none => .error "Generated content missing required field: steps"
      | some steps =>
        match c.supportingQuestion with
        | none =>
          .error "Generated content missing required field: supporting_question"
        | some sq =>
          if (pyStrip title).length < 5 then
            .error "Title must be a non-empty string with at least 5 characters"
          else if (pyStrip desc).length < 20 then
            .error "Description must be at least 20 characters long"
          else if steps.length < 2 then
            .error "Steps must be a list with at least 2 items"
          else if (pyStrip sq).length < 10 then
            .error "Supporting question must be at least 10 characters long"
          else
            match c.complexityLevel with
            | some lvl =>
              if lvl = "getting_started" ∨ lvl = "thinking_harder" ∨
                  lvl = "stretching_thinking" then .ok ()
              else .error ("Invalid complexity level: " ++ lvl)
            | none => .ok ()

/-- `StorageService.save_lesson` (`storage_service.py` lines 16-46): the
repository insert either yields a lesson id or raises; the `except` branch
catches every exception and returns the literal string `abc` (the
`DatabaseError` re-raise is commented out in the source). -/
def saveLesson (repoResult : Except Unit String) : String :=
  match repoResult with
  | .ok lessonId => lessonId
  | .error _ => "abc"

/-- The skills-metadata catalog (`SkillMetadataManager._skills_data`): an
ordered dict from color category to that category's skill list. -/
structure SkillCatalog where
  entries : List (String × List SkillSpec)
deriving Repr, DecidableEq, Inhabited

/-- `SkillMetadataManager.get_skills_by_color`: raises `ValidationError` when
the color is not a key of the catalog. -/
def getSkillsByColor (cat : SkillCatalog) (color : String) :
    Except Unit (List SkillSpec) :=
  match cat.entries.find? (fun p => p.1 = color) with
  | some p => .ok p.2
  | none => .error ()

/-- Total lookup used on the specification side of proofs: the skills of a
color, `[]` when the color is absent. -/
def skillsOfColor (cat : SkillCatalog) (color : String) : List SkillSpec :=
  match cat.entries.find? (fun p => p.1 = color) with
  | some p => p.2
  | none => []

/-- All skills of the catalog across a list of colors, in color order. -/
def skillsOfColors (cat : SkillCatalog) (colors : List String) :
    List SkillSpec :=
  (colors.map (fun c => skillsOfColor cat c)).flatten

/-- `SkillSelector._get_colors_for_difficulty` (`selector.py` lines 61-71). -/
def getColorsForDifficulty (difficulty : Rat) : List String :=
  if difficulty ≤ 3/10 then ["Green", "Blue"]
  else if difficulty ≤ 1/2 then ["Green", "Blue", "Yellow"]
  else if difficulty ≤ 7/10 then ["Blue", "Yellow", "Orange", "Red"]
  else ["Yellow", "Orange", "Red"]

/-- The fixed progression `["Green", "Blue", "Yellow", "Orange", "Red"]`. -/
def colorProgression : List String :=
  ["Green", "Blue", "Yellow", "Orange", "Red"]

/-- `random.choice` on a non-empty list, driven by an injected index `r`
(reduced modulo the length); never called on an empty list in the modelled
paths. -/
def randomChoice (l : List SkillSpec) (r : Nat) : SkillSpec :=
  l.getD (r % l.length) default

/-- Target colors for step `i` in `SkillSelector._select_progressive_skills`
(`selector.py` lines 89-102): Green opening, Red conclusion, otherwise a
two-color window of the progression (`ordered_colors[i:i+2]`, falling back to
`ordered_colors[-2:]`). -/
def targetColorsFor (orderedColors : List String) (stepCount i : Nat) :
    List String :=
  if i = 0 ∧ orderedColors.contains "Green" then ["Green"]
  else if i = stepCount - 1 ∧ orderedColors.contains "Red" then ["Red"]
  else if i < orderedColors.length then (orderedColors.drop i).take 2
  else orderedColors.drop (orderedColors.length - 2)

/-- Candidate collection shared by `SkillSelector._select_skill_from_colors`
and `_select_fallback_skill`: per color, fetch the catalog skills (which can
raise on an unknown color), filter by the preferred block type when one is
given for this step, and drop already-used skill names. -/
def candidatesFromColors (cat : SkillCatalog) (targetColors : List String)
    (preferredBlocks : Option (List String)) (stepIndex : Nat)
    (usedNames : List String) : Except Unit (List SkillSpec) :=
  match targetColors with
  | [] => .ok []
  | color :: restColors =>
    match getSkillsByColor cat color with
    | .error e => .error e
    | .ok colorSkills =>
      let colorSkills : List SkillSpec := match preferredBlocks with
        | some pbs =>
          if stepIndex < pbs.length then
            colorSkills.filter (fun s => s.blockType = pbs.getD stepIndex "")
          else colorSkills
        | none => colorSkills
      let colorSkills := colorSkills.filter
        (fun s => !(usedNames.contains s.name))
      match candidatesFromColors cat restColors preferredBlocks stepIndex
          usedNames with
      | .error e => .error e
      | .ok restCands => .ok (colorSkills ++ restCands)

/-- `SkillSelector._select_skill_from_colors`: random choice over the
candidates of the target colors, `none` when there are none. -/
def selectSkillFromColors (cat : SkillCatalog) (targetColors : List String)
    (preferredBlocks : Option (List String)) (stepIndex : Nat)
    (alreadySelected : List SkillSpec) (r : Nat) :
    Except Unit (Option SkillSpec) :=
  match candidatesFromColors cat targetColors preferredBlocks stepIndex
      (alreadySelected.map (fun s => s.name)) with
  | .error e => .error e
  | .ok cands =>
    if cands.isEmpty then .ok none else .ok (some (randomChoice cands r))

/-- `SkillSelector._select_fallback_skill`: any unused skill across all
available colors (no preferred-block filter). -/
def selectFallbackSkill (cat : SkillCatalog) (availableColors : List String)
    (alreadySelected : List SkillSpec) (r : Nat) :
    Except Unit (Option SkillSpec) :=
  match candidatesFromColors cat availableColors none 0
      (alreadySelected.map (fun s => s.name)) with
  | .error e => .error e
  | .ok cands =>
    if cands.isEmpty then .ok none else .ok (some (randomChoice cands r))

/-- The `for i in range(step_count)` loop of
`SkillSelector._select_progressive_skills` (`selector.py` lines 89-119): try
the target colors, fall back to any available skill, and append NOTHING when
both come up empty.  Random choices at step `i` draw indices `rng (2*i)` and
`rng (2*i+1)`. -/
def selectLoop (cat : SkillCatalog) (availableColors orderedColors :
    List String) (stepCount : Nat) (preferredBlocks : Option (List String))
    (rng : Nat → Nat) : List Nat → List SkillSpec →
    Except Unit (List SkillSpec)
  | [], selected => .ok selected
  | i :: rest, selected =>
    match selectSkillFromColors cat (targetColorsFor orderedColors stepCount i)
        preferredBlocks i selected (rng (2*i)) with
    | .error e => .error e
    | .ok (some skill) =>
      selectLoop cat availableColors orderedColors stepCount preferredBlocks
        rng rest (selected ++ [skill])
    | .ok none =>
      match selectFallbackSkill cat availableColors selected (rng (2*i+1)) with
      | .error e => .error e
      | .ok (some skill) =>
        selectLoop cat availableColors orderedColors stepCount preferredBlocks
          rng rest (selected ++ [skill])
      | .ok none =>
        selectLoop cat availableColors orderedColors stepCount preferredBlocks
          rng rest selected

/-- `SkillSelector._select_progressive_skills`. -/
def selectProgressiveSkills (cat : SkillCatalog)
    (availableColors : List String) (stepCount : Nat)
    (preferredBlocks : Option (List String)) (rng : Nat → Nat) :
    Except Unit (List SkillSpec) :=
  selectLoop cat availableColors
    (colorProgression.filter (fun c => availableColors.contains c))
    stepCount preferredBlocks rng (List.range stepCount) []

/-- `SkillSelector.select_skills_for_lesson`: colors from the difficulty,
then the progressive selection; any internal exception surfaces as
`SkillSelectionError` (the `Except.error` here). -/
def selectSkillsForLesson (cat : SkillCatalog) (difficulty : Rat)
    (stepCount : Nat) (preferredBlocks : Option (List String))
    (rng : Nat → Nat) : Except Unit (List SkillSpec) :=
  selectProgressiveSkills cat (getColorsForDifficulty difficulty) stepCount
    preferredBlocks rng

/-- Observer for the selector result: `some length` on success, `none` when a
`SkillSelectionError` was raised. -/
def okLength : Except Unit (List SkillSpec) → Option Nat
  | .ok l => some l.length
  | .error _ => none

/-! Concrete fixtures used by counterexamples and witnesses. -/

/-- A Green/MapIt foundational skill of the catalog. -/
def identifySkill : SkillSpec :=
  { name := "Identify"
    color := "Green"
    blockType := "MapIt"
    exampleQuestion := "What can you recognize in this information?"
    description := "Recognize and point out specific elements or features"
    iconUrl := "https://cdn.structural-learning.com/icons/green_identify.svg"
    mediaSuggestion := none }

/-- A Red/BuildIt higher-order skill of the catalog. -/
def hypothesiseSkill : SkillSpec :=
  { name := "Hypothesise"
    color := "Red"
    blockType := "BuildIt"
    exampleQuestion := "What do you predict will happen?"
    description := "Make predictions based on evidence and reasoning"
    iconUrl := "https://cdn.structural-learning.com/icons/red_hypothesise.svg"
    mediaSuggestion := none }

/-- A mid-difficulty Science generation context. -/
def scienceCtx : GenerationContext :=
  { topic := "Plants"
    grade := "Year 4"
    subject := "Science"
    curriculum := "UK KS2"
    difficulty := 1/2
    curriculumContext := none }

/-- Position of a color in the fixed progression (index 5 when absent),
used to state span monotonicity. -/
def colorIdx (c : String) : Nat :=
  colorProgression.indexOf c

/-- C3 counterexample: with difficulty 2/5 the permitted set is
Green-Blue-Yellow, while at the larger difficulty 3/5 it is
Blue-Yellow-Orange-Red; the category Green permitted at 2/5 has disappeared
at 3/5, so the permitted category set is NOT monotone under set inclusion as
the claim states. -/
theorem c3_counterexample :
    (2/5 : Rat) < 3/5 ∧ "Green" ∈ getColorsForDifficulty (2/5) ∧
      "Green" ∉ getColorsForDifficulty (3/5) := by
  refine ⟨by norm_num, ?_, ?_⟩ <;> norm_num [getColorsForDifficulty] <;> decide

/-- C3 amended: the permitted category window slides upward monotonically:
for difficulties d ≤ e, every category permitted at d is dominated (in
progression order) by some category permitted at e, and every category
permitted at e dominates some category permitted at d — i.e. both endpoints
of the permitted span are non-decreasing in difficulty, though individual
early categories do drop out. -/
theorem c3_span_monotone (d e : Rat) (h : d ≤ e) :
    (∀ c ∈ getColorsForDifficulty d, ∃ c2 ∈ getColorsForDifficulty e,
      colorIdx c ≤ colorIdx c2) ∧
    (∀ c2 ∈ getColorsForDifficulty e, ∃ c ∈ getColorsForDifficulty d,
      colorIdx c ≤ colorIdx c2) := by
  unfold getColorsForDifficulty
  split_ifs <;> first
    | decide
    | (exfalso; linarith)

/-- Witness for `c3_span_monotone` at difficulties 0 and 1. -/
theorem c3_span_monotone_witness :
    ((0 : Rat) ≤ 1) ∧
    ((∀ c ∈ getColorsForDifficulty 0, ∃ c2 ∈ getColorsForDifficulty 1,
      colorIdx c ≤ colorIdx c2) ∧
    (∀ c2 ∈ getColorsForDifficulty 1, ∃ c ∈ getColorsForDifficulty 0,
      colorIdx c ≤ colorIdx c2)) :=
  ⟨by norm_num, c3_span_monotone 0 1 (by norm_num)⟩

/-- C6: for every skill whose activity type is one of the catalog's three
block types (MapIt / SayIt / BuildIt, per the data model) and every context,
`estimate_activity_time` is positive, and the lightweight estimate (the fixed
5-minute prompt charge) never exceeds the full-scaffold estimate of the same
skill and context. -/
theorem c6_estimate_bounds (useScaffold : Bool) (skill : SkillSpec)
    (ctx : GenerationContext)
    (hbt : skill.blockType = "MapIt" ∨ skill.blockType = "SayIt" ∨
      skill.blockType = "BuildIt") :
    0 < estimateActivityTime useScaffold skill ctx ∧
      estimateActivityTime false skill ctx ≤
        estimateActivityTime true skill ctx := by
  have hfalse : estimateActivityTime false skill ctx = 5 := rfl
  have htrue : 5 ≤ estimateActivityTime true skill ctx := by
    unfold estimateActivityTime timeEstimatesLookup
    rcases hbt with h | h | h <;> rw [h] <;> norm_num <;>
      split_ifs <;> norm_num
  refine ⟨?_, ?_⟩
  · cases useScaffold
    · rw [hfalse]; norm_num
    · omega
  · rw [hfalse]; exact htrue

/-- Witness for `c6_estimate_bounds`: a full-scaffold estimate for the
Green/MapIt skill in the mid-difficulty Science context. -/
theorem c6_estimate_bounds_witness :
    (identifySkill.blockType = "MapIt" ∨ identifySkill.blockType = "SayIt" ∨
      identifySkill.blockType = "BuildIt") ∧
    (0 < estimateActivityTime true identifySkill scienceCtx ∧
      estimateActivityTime false identifySkill scienceCtx ≤
        estimateActivityTime true identifySkill scienceCtx) :=
  ⟨Or.inl rfl, c6_estimate_bounds true identifySkill scienceCtx (Or.inl rfl)⟩

/-- C10: `should_use_full_scaffold` is total — it always returns a boolean —
and whenever its body raises (the `Except.error` branch, e.g. the
`ZeroDivisionError` from `available_time_minutes / total_steps` when
`total_steps == 0`), the `except` handler returns `True`, defaulting to a
full scaffold. -/
theorem c10_error_defaults_to_scaffold (skill : SkillSpec)
    (ctx : GenerationContext) (availableTime : Option Int)
    (seqPos totalSteps prevScaffolds : Nat) (r3 r5 : Rat) (u : Unit)
    (herr : shouldUseFullScaffoldBody skill ctx availableTime seqPos totalSteps
      prevScaffolds r3 r5 = .error u) :
    shouldUseFullScaffold skill ctx availableTime seqPos totalSteps
      prevScaffolds r3 r5 = true := by
  unfold shouldUseFullScaffold
  rw [herr]

/-- Witness for `c10_error_defaults_to_scaffold`: a 30-minute budget with
`total_steps = 0` makes the body divide by zero, and the wrapper returns
`true`. -/
theorem c10_error_defaults_to_scaffold_witness :
    shouldUseFullScaffoldBody identifySkill scienceCtx (some 30) 0 0 0 0 0 =
      .error () ∧
    shouldUseFullScaffold identifySkill scienceCtx (some 30) 0 0 0 0 0 =
      true := by
  have herr : shouldUseFullScaffoldBody identifySkill scienceCtx (some 30)
      0 0 0 0 0 = .error () := by
    norm_num [shouldUseFullScaffoldBody, pyTruthy, divByStep]
  exact ⟨herr, c10_error_defaults_to_scaffold identifySkill scienceCtx
    (some 30) 0 0 0 0 0 () herr⟩

/-- C9 (code bug): `StorageService.save_lesson` catches every persistence
exception and returns the fabricated lesson id `abc` instead of reporting the
storage failure (the `DatabaseError` re-raise in the source is commented
out); the failure is silently masked as a successful save. -/
theorem c9_storage_failure_swallowed :
    saveLesson (Except.error ()) = "abc" ∧
      ∀ r : Except Unit String, ∃ s : String, saveLesson r = s := by
  refine ⟨rfl, fun r => ⟨saveLesson r, rfl⟩⟩

/-- Content with a 5-character description and a 9-character supporting
question, but a valid title and two steps. -/
def shortDescContent : GeneratedContent :=
  { title := some "Valid Title"
    description := some "short"
    steps := some ["Step one", "Step two"]
    supportingQuestion := some "Why here?"
    complexityLevel := none }

/-- C5 counterexample: the enhanced generator's validator — the one used by
the adaptive full-scaffold flow — ACCEPTS content whose description is
shorter than 20 characters and whose supporting question is shorter than 10
characters, so the claimed description/supporting-question length validation
does not happen on that path. -/
theorem c5_counterexample :
    enhancedValidateGeneratedContent shortDescContent = Except.ok () ∧
      (pyStrip (shortDescContent.description.getD "")).length < 20 ∧
      (pyStrip (shortDescContent.supportingQuestion.getD "")).length < 10 := by
  exact ⟨rfl, by decide, by decide⟩

/-- C5 amended: the base `BlockGenerator` validator does enforce all four
constraints (title ≥ 5, description ≥ 20, steps ≥ 2, supporting question
≥ 10, on stripped strings), while the `EnhancedBlockGenerator` validator
enforces only field presence, title ≥ 5 and steps ≥ 2; in either generator a
violation raises `ValidationError`, which aborts assembly of the whole
plan. -/
theorem c5_validators (c1 c2 : GeneratedContent) (bt : String)
    (hb : baseValidateGeneratedContent c1 bt = Except.ok ())
    (he : enhancedValidateGeneratedContent c2 = Except.ok ()) :
    (5 ≤ (pyStrip (c1.title.getD "")).length ∧
      20 ≤ (pyStrip (c1.description.getD "")).length ∧
      2 ≤ (c1.steps.getD []).length ∧
      10 ≤ (pyStrip (c1.supportingQuestion.getD "")).length) ∧
    (5 ≤ (pyStrip (c2.title.getD "")).length ∧
      2 ≤ (c2.steps.getD []).length) := by
  constructor
  · unfold baseValidateGeneratedContent at hb
    rcases h1 : c1.title with _ | title <;> rw [h1] at hb
    · exact absurd hb (by simp)
    rcases h2 : c1.description with _ | desc <;> rw [h2] at hb
    · exact absurd hb (by simp)
    rcases h3 : c1.steps with _ | steps <;> rw [h3] at hb
    · exact absurd hb (by simp)
    rcases h4 : c1.supportingQuestion with _ | sq <;> rw [h4] at hb
    · exact absurd hb (by simp)
    simp only [] at hb
    split_ifs at hb with g1 g2 g3 g4
    simp only [h1, h2, h3, h4, Option.getD_some]
    omega
  · unfold enhancedValidateGeneratedContent at he
    rcases h1 : c2.title with _ | title <;> rw [h1] at he
    · exact absurd he (by simp)
    rcases h2 : c2.description with _ | desc <;> rw [h2] at he
    · exact absurd he (by simp)
    rcases h3 : c2.steps with _ | steps <;> rw [h3] at he
    · exact absurd he (by simp)
    rcases h4 : c2.supportingQuestion with _ | sq <;> rw [h4] at he
    · exact absurd he (by simp)
    simp only [] at he
    split_ifs at he with g1 g2
    simp only [h1, h2, h3, h4, Option.getD_some]
    omega

/-- Witness for `c5_validators`: concrete content accepted by both
validators. -/
theorem c5_validators_witness :
    (baseValidateGeneratedContent
      { title := some "Compare Plant Habitats"
        description := some "Students compare two habitats in detail"
        steps := some ["Observe the two habitats", "List the differences"]
        supportingQuestion := some "How do the habitats differ?"
        complexityLevel := none } "MapIt" = Except.ok ()) ∧
    (enhancedValidateGeneratedContent shortDescContent = Except.ok ()) ∧
    ((5 ≤ (pyStrip ((some "Compare Plant Habitats").getD "")).length ∧
      20 ≤ (pyStrip ((some "Students compare two habitats in detail").getD
        "")).length ∧
      2 ≤ ((some ["Observe the two habitats",
        "List the differences"]).getD []).length ∧
      10 ≤ (pyStrip ((some "How do the habitats differ?").getD "")).length) ∧
    (5 ≤ (pyStrip (shortDescContent.title.getD "")).length ∧
      2 ≤ (shortDescContent.steps.getD []).length)) := by
  have hb : baseValidateGeneratedContent
      { title := some "Compare Plant Habitats"
        description := some "Students compare two habitats in detail"
        steps := some ["Observe the two habitats", "List the differences"]
        supportingQuestion := some "How do the habitats differ?"
        complexityLevel := none } "MapIt" = Except.ok () := rfl
  have he : enhancedValidateGeneratedContent shortDescContent =
      Except.ok () := rfl
  exact ⟨hb, he, c5_validators _ shortDescContent "MapIt" hb he⟩

/-- The step-1 time-pressure veto of `should_use_full_scaffold`: a (truthy)
time budget whose remaining-time-per-remaining-step falls below 8 minutes, or
below 15 minutes for a BuildIt skill. -/
def timePressureVeto (skill : SkillSpec) (availableTime : Option Int)
    (seqPos totalSteps : Nat) : Bool :=
  pyTruthy availableTime &&
    (decide (timePerRemainingStep (availableTime.getD 0) seqPos totalSteps
        < 8) ||
      (skill.blockType == "BuildIt" &&
        decide (timePerRemainingStep (availableTime.getD 0) seqPos totalSteps
          < 15)))

/-- C7: for a prompt-friendly skill (a `simple_prompt_candidates` member),
when the time-pressure veto is not in effect and no full scaffold has been
decided yet (`previous_scaffolds_count = 0`), the decision is full scaffold,
whatever the random draws: the variety downgrade never fires before the
lesson has at least one full scaffold. -/
theorem c7_first_scaffold_guard (skill : SkillSpec) (ctx : GenerationContext)
    (availableTime : Option Int) (seqPos totalSteps : Nat) (r3 r5 : Rat)
    (hpf : simplePromptCandidate skill.color skill.name = true)
    (hveto : timePressureVeto skill availableTime seqPos totalSteps = false) :
    shouldUseFullScaffold skill ctx availableTime seqPos totalSteps 0 r3 r5 =
      true := by
  have hchain : scaffoldDecisionChain skill ctx seqPos totalSteps 0 r3 r5 =
      true := by
    unfold scaffoldDecisionChain
    by_cases hreq : scaffoldRequiredSet skill.color skill.name = true
    · simp [hreq]
    · simp [hreq, hpf]
  unfold shouldUseFullScaffold shouldUseFullScaffoldBody
  cases hav : pyTruthy availableTime
  · simp [hav, hchain]
  · by_cases h0 : totalSteps = 0
    · simp [hav, divByStep, h0]
    · have h8 : ¬(timePerRemainingStep (availableTime.getD 0) seqPos
          totalSteps < 8) := by
        intro hlt
        apply absurd hveto
        simp [timePressureVeto, hav, hlt]
      have h15 : ¬(skill.blockType = "BuildIt" ∧
          timePerRemainingStep (availableTime.getD 0) seqPos totalSteps
            < 15) := by
        rintro ⟨hbt, hlt⟩
        apply absurd hveto
        simp [timePressureVeto, hav, hbt, hlt]
      simp [hav, divByStep, h0, h8, h15, hchain]

/-- Witness for `c7_first_scaffold_guard`: the Green prompt-friendly skill
with no time budget at the opening position, with a random draw (0) that
would have chosen the variety downgrade had it been allowed. -/
theorem c7_first_scaffold_guard_witness :
    simplePromptCandidate identifySkill.color identifySkill.name = true ∧
    timePressureVeto identifySkill none 0 3 = false ∧
    shouldUseFullScaffold identifySkill scienceCtx none 0 3 0 0 0 = true :=
  ⟨rfl, rfl, c7_first_scaffold_guard identifySkill scienceCtx none 0 3 0 0
    rfl rfl⟩

/-- Evaluation of the remaining-time share when steps remain. -/
theorem timePerRemainingStep_of_lt (t : Int) (i n : Nat) (h : i < n) :
    timePerRemainingStep t i n =
      ((t : Rat) - (i : Rat) * 10) / (((n : Int) - (i : Int) : Int) : Rat) := by
  unfold timePerRemainingStep
  have hrem : (0 : Int) < (n : Int) - (i : Int) := by omega
  simp [hrem]

/-- Under a nonzero budget below 8 minutes per step, the step-1 veto fires
and the assessor returns `false` at every in-range position. -/
theorem veto_all_positions (skill : SkillSpec) (ctx : GenerationContext)
    (T : Int) (i n prev : Nat) (r3 r5 : Rat) (hT0 : T ≠ 0) (hin : i < n)
    (hT : (T : Rat) < 8 * n) :
    shouldUseFullScaffold skill ctx (some T) i n prev r3 r5 = false := by
  have hav : pyTruthy (some T) = true := by simp [pyTruthy, hT0]
  have h0 : n ≠ 0 := by omega
  have hlt : timePerRemainingStep T i n < 8 := by
    rw [timePerRemainingStep_of_lt T i n hin]
    have hrem : (0 : Rat) < (((n : Int) - (i : Int) : Int) : Rat) := by
      have : (0 : Int) < (n : Int) - (i : Int) := by omega
      exact_mod_cast this
    rw [div_lt_iff hrem]
    have hi : (0 : Rat) ≤ (i : Rat) := by positivity
    push_cast
    linarith
  unfold shouldUseFullScaffold shouldUseFullScaffoldBody
  simp [hav, divByStep, h0, hlt]

/-- Every decision produced by the planning loop under a nonzero budget below
8 minutes per step is a lightweight prompt. -/
theorem planLoop_all_prompt (ctx : GenerationContext) (T : Int)
    (flex : String) (rng : Nat → Rat) (n : Nat) (hT0 : T ≠ 0)
    (hT : (T : Rat) < 8 * n) :
    ∀ (rest : List SkillSpec) (i prev : Nat) (sumEst : Int),
      i + rest.length ≤ n →
      ∀ d ∈ planLoop ctx (some T) flex n rng rest i prev sumEst,
        d.useScaffold = false := by
  intro rest
  induction rest with
  | nil =>
    intro i prev sumEst _ d hd
    simp [planLoop] at hd
  | cons skill rest ih =>
    intro i prev sumEst hlen d hd
    have hin : i < n := by
      simp only [List.length_cons] at hlen
      omega
    have huse0 : shouldUseFullScaffold skill ctx (some T) i n prev
        (rng (2*i)) (rng (2*i+1)) = false :=
      veto_all_positions skill ctx T i n prev _ _ hT0 hin hT
    rw [planLoop] at hd
    simp only [List.mem_cons] at hd
    rcases hd with rfl | hd
    · simp [decideOne, huse0]
    · exact ih (i+1) _ _ (by simp only [List.length_cons] at hlen; omega) d hd

/-- C2: with `time_flexibility == "strict"` and a (nonzero) available time
below `8 × step_count`, the planned decision sequence contains zero
full-scaffold decisions whose activity type is construction (BuildIt) — in
fact every decision is a lightweight prompt. -/
theorem c2_strict_tight_budget_no_buildit (skills : List SkillSpec)
    (ctx : GenerationContext) (T : Int) (rng : Nat → Rat) (hT0 : T ≠ 0)
    (hT : (T : Rat) < 8 * skills.length) :
    ((planScaffoldingStrategy skills ctx (some T) "strict" rng).filter
      (fun d => d.useScaffold && d.blockType == "BuildIt")).length = 0 := by
  have hall := planLoop_all_prompt ctx T "strict" rng skills.length hT0 hT
    skills 0 0 0 (by simp)
  rw [List.length_eq_zero, List.filter_eq_nil]
  intro d hd
  have hfalse := hall d hd
  simp [hfalse]

/-- Witness for `c2_strict_tight_budget_no_buildit`: a 20-minute strict
budget over three steps (including a BuildIt skill) yields no full-scaffold
construction decision. -/
theorem c2_strict_tight_budget_no_buildit_witness :
    ((20 : Int) ≠ 0) ∧ (((20 : Int) : Rat) <
      8 * ([identifySkill, hypothesiseSkill, identifySkill].length : Nat)) ∧
    ((planScaffoldingStrategy [identifySkill, hypothesiseSkill, identifySkill]
      scienceCtx (some 20) "strict" (fun _ => 0)).filter
      (fun d => d.useScaffold && d.blockType == "BuildIt")).length = 0 :=
  ⟨by norm_num, by norm_num,
    c2_strict_tight_budget_no_buildit _ scienceCtx 20 (fun _ => 0)
      (by norm_num) (by norm_num)⟩

/-- Specification-side checker for the strict-mode guarantee: every decision
kept as a full scaffold must have an estimate no larger than the average
remaining time per remaining step at its position (computed, like the
planner, from the budget minus the estimates recorded before it). -/
def checkShare (availableTime : Option Int) (n : Nat) :
    List ScaffoldDecision → Nat → Int → Bool
  | [], _, _ => true
  | d :: rest, i, sumEst =>
    ((!d.useScaffold) ||
      decide ((d.estimatedTime : Rat) ≤
        strictAvgShare availableTime n i sumEst)) &&
      checkShare availableTime n rest (i+1) (sumEst + d.estimatedTime)

/-- A single strict-mode planning step keeps a full scaffold only when its
estimate is within the remaining fair share. -/
theorem flipStep_share (T : Int) (n i : Nat) (sumEst : Int) (use0 : Bool)
    (est0 e5 : Int) (hT0 : T ≠ 0) :
    ((!(if strictFlip (some T) "strict" n i sumEst est0 use0 then false
        else use0)) ||
      decide ((((if strictFlip (some T) "strict" n i sumEst est0 use0 then e5
        else est0) : Int) : Rat) ≤ strictAvgShare (some T) n i sumEst)) =
      true := by
  by_cases hflip : strictFlip (some T) "strict" n i sumEst est0 use0 = true
  · simp [hflip]
  · simp only [Bool.not_eq_true] at hflip
    rw [hflip]
    cases use0
    · simp
    · by_cases hlt : strictAvgShare (some T) n i sumEst < (est0 : Rat)
      · exfalso
        rw [strictFlip] at hflip
        simp [pyTruthy, hT0, hlt] at hflip
      · simp [le_of_not_lt hlt]

/-- Every strict-mode plan under a truthy budget passes the fair-share
checker, whatever the skills, context, positions and randomness. -/
theorem planLoop_checkShare (ctx : GenerationContext) (T : Int)
    (rng : Nat → Rat) (n : Nat) (hT0 : T ≠ 0) :
    ∀ (rest : List SkillSpec) (i prev : Nat) (sumEst : Int),
      checkShare (some T) n
        (planLoop ctx (some T) "strict" n rng rest i prev sumEst) i sumEst =
        true := by
  intro rest
  induction rest with
  | nil => intro i prev sumEst; rfl
  | cons skill rest ih =>
    intro i prev sumEst
    rw [planLoop]
    simp only [checkShare]
    rw [Bool.and_eq_true]
    exact ⟨flipStep_share T n i sumEst _ _ _ hT0, ih (i+1) _ _⟩

/-- C4 amended: `should_use_full_scaffold` itself never consults
`time_flexibility`; the strict-mode handling lives in
`_plan_scaffolding_strategy` and forces lightweight only when the estimate
exceeds the remaining fair share.  Hence: with `time_flexibility == "strict"`
and a nonzero `available_time_minutes`, every decision kept as a full
scaffold has `estimated_time ≤ (budget - estimates recorded before it) /
(remaining steps)` — but a full scaffold within that share survives, so
strict mode alone does NOT force a lightweight decision. -/
theorem c4_strict_share_bound (skills : List SkillSpec)
    (ctx : GenerationContext) (T : Int) (rng : Nat → Rat) (hT0 : T ≠ 0) :
    checkShare (some T) skills.length
      (planScaffoldingStrategy skills ctx (some T) "strict" rng) 0 0 =
      true := by
  unfold planScaffoldingStrategy
  exact planLoop_checkShare ctx T rng skills.length hT0 skills 0 0 0

/-- C4 counterexample: a Red/BuildIt skill under `time_flexibility ==
"strict"` with a set 100-minute budget is still planned as a FULL scaffold
(its 20-minute estimate fits the share), refuting the claim that a set
budget plus strict flexibility always forces a lightweight decision. -/
theorem c4_counterexample :
    (planScaffoldingStrategy [hypothesiseSkill] scienceCtx (some 100) "strict"
      (fun _ => 0)).map (fun d => d.useScaffold) = [true] := by
  norm_num [planScaffoldingStrategy, planLoop, decideOne,
    shouldUseFullScaffold,
    shouldUseFullScaffoldBody, pyTruthy, divByStep, timePerRemainingStep,
    scaffoldDecisionChain, scaffoldRequiredSet, simplePromptCandidate,
    hypothesiseSkill, scienceCtx, estimateActivityTime, timeEstimatesLookup,
    strictFlip, strictAvgShare, Option.getD] <;> decide

/-- Witness for `c4_strict_share_bound` on the same concrete strict plan. -/
theorem c4_strict_share_bound_witness :
    ((100 : Int) ≠ 0) ∧
    checkShare (some 100) ([hypothesiseSkill].length)
      (planScaffoldingStrategy [hypothesiseSkill] scienceCtx (some 100)
        "strict" (fun _ => 0)) 0 0 = true :=
  ⟨by norm_num, c4_strict_share_bound [hypothesiseSkill] scienceCtx 100
    (fun _ => 0) (by norm_num)⟩

/-- The planning loop yields one decision per skill. -/
theorem planLoop_length (ctx : GenerationContext) (availableTime : Option Int)
    (flex : String) (n : Nat) (rng : Nat → Rat) :
    ∀ (rest : List SkillSpec) (i prev : Nat) (sumEst : Int),
      (planLoop ctx availableTime flex n rng rest i prev sumEst).length =
        rest.length := by
  intro rest
  induction rest with
  | nil => intro i prev sumEst; rfl
  | cons skill rest ih =>
    intro i prev sumEst
    rw [planLoop]
    simp only [List.length_cons, ih]

/-- Splitting a list by a boolean predicate preserves length. -/
theorem length_filter_bool_split {α : Type} (p : α → Bool) (l : List α) :
    (l.filter p).length + (l.filter (fun a => !(p a))).length = l.length := by
  induction l with
  | nil => rfl
  | cons a l ih =>
    by_cases h : p a = true <;> simp [List.filter, h, ← ih] <;> omega

/-- Per-position agreement of block types with decisions: a block is of the
`Prompt` type exactly when its decision is lightweight, provided no skill
carries the reserved `Prompt` activity type. -/
theorem planLoop_block_counts (ctx : GenerationContext)
    (availableTime : Option Int) (flex : String) (n : Nat) (rng : Nat → Rat) :
    ∀ (rest : List SkillSpec) (i prev : Nat) (sumEst : Int),
      (∀ s ∈ rest, s.blockType ≠ "Prompt") →
      ((((rest.zip (planLoop ctx availableTime flex n rng rest i prev
          sumEst)).map (fun p => blockForDecision p.1 p.2)).filter
          (fun b => b.blockType == "Prompt")).length =
        ((planLoop ctx availableTime flex n rng rest i prev sumEst).filter
          (fun d => !d.useScaffold)).length) ∧
      ((((rest.zip (planLoop ctx availableTime flex n rng rest i prev
          sumEst)).map (fun p => blockForDecision p.1 p.2)).filter
          (fun b => b.blockType != "Prompt")).length =
        ((planLoop ctx availableTime flex n rng rest i prev sumEst).filter
          (fun d => d.useScaffold)).length) := by
  intro rest
  induction rest with
  | nil => intro i prev sumEst _; exact ⟨rfl, rfl⟩
  | cons skill rest ih =>
    intro i prev sumEst hbt
    have hskill : skill.blockType ≠ "Prompt" := hbt skill (by simp)
    have ihr := ih (i+1)
      (prev + (if (decideOne ctx availableTime flex n rng i prev sumEst
        skill).useScaffold then 1 else 0))
      (sumEst + (decideOne ctx availableTime flex n rng i prev sumEst
        skill).estimatedTime)
      (fun s hs => hbt s (by simp [hs]))
    rw [planLoop]
    by_cases huse : (decideOne ctx availableTime flex n rng i prev sumEst
        skill).useScaffold = true
    · simp only [huse, if_true] at ihr
      have hb : blockForDecision skill
          (decideOne ctx availableTime flex n rng i prev sumEst skill) =
          { blockType := skill.blockType, skillName := skill.name } := by
        simp [blockForDecision, huse]
      have h1 : (({ blockType := skill.blockType, skillName := skill.name } :
          LessonBlockT).blockType == "Prompt") = false := by
        simp [hskill]
      have h2 : (!(decideOne ctx availableTime flex n rng i prev sumEst
          skill).useScaffold) = false := by simp [huse]
      constructor
      · simp only [List.zip_cons_cons, List.map_cons, hb, List.filter_cons,
          h1, h2, huse, Bool.false_eq_true, if_false]
        exact ihr.1
      · have h3 : ((⟨skill.blockType, skill.name⟩ :
            LessonBlockT).blockType != "Prompt") = true := by
          simp [bne, hskill]
        simp only [List.zip_cons_cons, List.map_cons, hb, List.filter_cons,
          h3, huse, if_true, List.length_cons]
        rw [ihr.2]
    · simp only [Bool.not_eq_true] at huse
      simp only [huse, Bool.false_eq_true, if_false] at ihr
      have hb : blockForDecision skill
          (decideOne ctx availableTime flex n rng i prev sumEst skill) =
          { blockType := "Prompt", skillName := skill.name } := by
        simp [blockForDecision, huse]
      have h2 : (!(decideOne ctx availableTime flex n rng i prev sumEst
          skill).useScaffold) = true := by simp [huse]
      constructor
      · simp only [List.zip_cons_cons, List.map_cons, hb, List.filter_cons,
          h2, huse, Bool.not_false, Bool.false_eq_true, if_false, if_true,
          List.length_cons]
        simp only [show (({ blockType := "Prompt", skillName := skill.name } :
          LessonBlockT).blockType == "Prompt") = true from rfl, if_true,
          List.length_cons]
        rw [ihr.1]
      · simp only [List.zip_cons_cons, List.map_cons, hb, List.filter_cons,
          h2, huse, Bool.not_false, Bool.false_eq_true, if_false]
        simp only [show (({ blockType := "Prompt", skillName := skill.name } :
          LessonBlockT).blockType != "Prompt") = false from rfl,
          Bool.false_eq_true, if_false]
        exact ihr.2

/-- C8: the scaffolding summary computed during sequencing agrees with the
assembled blocks: the Prompt-typed blocks number `simple_prompts`, the
remaining blocks number `full_scaffolds`, the two counts sum to the number of
blocks, and `total_time_estimate` is the sum of the per-decision estimates.
(Hypothesis: no catalog skill uses the reserved `Prompt` activity type.) -/
theorem c8_summary_consistency (skills : List SkillSpec)
    (ctx : GenerationContext) (availableTime : Option Int) (flex : String)
    (rng : Nat → Rat) (hbt : ∀ s ∈ skills, s.blockType ≠ "Prompt") :
    (((generateAdaptiveLessonBlocks skills ctx availableTime flex rng).1.filter
        (fun b => b.blockType == "Prompt")).length =
      (generateAdaptiveLessonBlocks skills ctx availableTime flex
        rng).2.simplePrompts) ∧
    (((generateAdaptiveLessonBlocks skills ctx availableTime flex rng).1.filter
        (fun b => b.blockType != "Prompt")).length =
      (generateAdaptiveLessonBlocks skills ctx availableTime flex
        rng).2.fullScaffolds) ∧
    ((generateAdaptiveLessonBlocks skills ctx availableTime flex
        rng).2.fullScaffolds +
      (generateAdaptiveLessonBlocks skills ctx availableTime flex
        rng).2.simplePrompts =
      (generateAdaptiveLessonBlocks skills ctx availableTime flex
        rng).1.length) ∧
    ((generateAdaptiveLessonBlocks skills ctx availableTime flex
        rng).2.totalTimeEstimate =
      ((planScaffoldingStrategy skills ctx availableTime flex rng).map
        (fun d => d.estimatedTime)).sum) := by
  have key := planLoop_block_counts ctx availableTime flex skills.length rng
    skills 0 0 0 hbt
  have hlen : (planLoop ctx availableTime flex skills.length rng
      skills 0 0 0).length = skills.length :=
    planLoop_length ctx availableTime flex skills.length rng skills 0 0 0
  have hsplit := length_filter_bool_split
    (fun d : ScaffoldDecision => d.useScaffold)
    (planLoop ctx availableTime flex skills.length rng skills 0 0 0)
  have hble := List.length_filter_le
    (fun d : ScaffoldDecision => d.useScaffold)
    (planLoop ctx availableTime flex skills.length rng skills 0 0 0)
  unfold generateAdaptiveLessonBlocks planScaffoldingStrategy
    getScaffoldingSummary
  simp only [List.length_map, List.length_zip, hlen, Nat.min_self]
  refine ⟨?_, ?_, ?_, trivial⟩
  · rw [key.1]
    omega
  · exact key.2
  · omega

/-- Witness for `c8_summary_consistency` on a concrete two-skill lesson. -/
theorem c8_summary_consistency_witness :
    (∀ s ∈ [identifySkill, hypothesiseSkill], s.blockType ≠ "Prompt") ∧
    ((((generateAdaptiveLessonBlocks [identifySkill, hypothesiseSkill]
        scienceCtx none "moderate" (fun _ => 0)).1.filter
        (fun b => b.blockType == "Prompt")).length =
      (generateAdaptiveLessonBlocks [identifySkill, hypothesiseSkill]
        scienceCtx none "moderate" (fun _ => 0)).2.simplePrompts) ∧
    (((generateAdaptiveLessonBlocks [identifySkill, hypothesiseSkill]
        scienceCtx none "moderate" (fun _ => 0)).1.filter
        (fun b => b.blockType != "Prompt")).length =
      (generateAdaptiveLessonBlocks [identifySkill, hypothesiseSkill]
        scienceCtx none "moderate" (fun _ => 0)).2.fullScaffolds) ∧
    ((generateAdaptiveLessonBlocks [identifySkill, hypothesiseSkill]
        scienceCtx none "moderate" (fun _ => 0)).2.fullScaffolds +
      (generateAdaptiveLessonBlocks [identifySkill, hypothesiseSkill]
        scienceCtx none "moderate" (fun _ => 0)).2.simplePrompts =
      (generateAdaptiveLessonBlocks [identifySkill, hypothesiseSkill]
        scienceCtx none "moderate" (fun _ => 0)).1.length) ∧
    ((generateAdaptiveLessonBlocks [identifySkill, hypothesiseSkill]
        scienceCtx none "moderate" (fun _ => 0)).2.totalTimeEstimate =
      ((planScaffoldingStrategy [identifySkill, hypothesiseSkill] scienceCtx
        none "moderate" (fun _ => 0)).map
        (fun d => d.estimatedTime)).sum)) :=
  ⟨by intro s hs; fin_cases hs <;> decide,
    c8_summary_consistency [identifySkill, hypothesiseSkill] scienceCtx none
      "moderate" (fun _ => 0)
      (by intro s hs; fin_cases hs <;> decide)⟩

/-- A Blue/MapIt organizing skill of the catalog. -/
def compareSkill : SkillSpec :=
  { name := "Compare"
    color := "Blue"
    blockType := "MapIt"
    exampleQuestion := "What are the similarities and differences?"
    description := "Identify similarities and differences between concepts"
    iconUrl := "https://cdn.structural-learning.com/icons/blue_compare.svg"
    mediaSuggestion := none }

/-- A catalog whose permitted low-difficulty colors hold only ONE skill in
total: Green has a single skill and Blue is empty. -/
def sparseCatalog : SkillCatalog :=
  ⟨[("Green", [identifySkill]), ("Blue", [])]⟩

/-- A catalog with one Green and one Blue skill. -/
def twoSkillCatalog : SkillCatalog :=
  ⟨[("Green", [identifySkill]), ("Blue", [compareSkill])]⟩

/-- C1 counterexample: with difficulty 0.2 (permitted colors Green and Blue),
a catalog holding a single skill, and `step_count = 3`, the selector returns
`ok` with only ONE skill — it silently returns a short sequence instead of
signalling a `SkillSelectionError`. -/
theorem c1_counterexample :
    selectSkillsForLesson sparseCatalog (1/5) 3 none (fun _ => 0) =
      Except.ok [identifySkill] ∧ (1 : Nat) ≠ 3 := by
  have hc : getColorsForDifficulty (1/5) = ["Green", "Blue"] := by
    norm_num [getColorsForDifficulty]
  refine ⟨?_, by decide⟩
  unfold selectSkillsForLesson
  rw [hc]
  rfl

/-- `random.choice` returns an element of its (non-empty) argument. -/
theorem randomChoice_mem (l : List SkillSpec) (r : Nat) (h : l ≠ []) :
    randomChoice l r ∈ l := by
  unfold randomChoice
  have hlt : r % l.length < l.length :=
    Nat.mod_lt _ (List.length_pos.mpr h)
  rw [List.getD_eq_getElem l default hlt]
  exact List.getElem_mem hlt

/-- On a catalog key, `get_skills_by_color` succeeds with the color's
skills. -/
theorem getSkillsByColor_ok (cat : SkillCatalog) (c : String)
    (h : (cat.entries.find? (fun p => p.1 = c)).isSome) :
    getSkillsByColor cat c = .ok (skillsOfColor cat c) := by
  unfold getSkillsByColor skillsOfColor
  cases hfind : cat.entries.find? (fun p => p.1 = c)
  · rw [hfind] at h; exact absurd h (by simp)
  · rfl

/-- Membership in the color-indexed union. -/
theorem mem_skillsOfColors (cat : SkillCatalog) (colors : List String)
    (c : String) (s : SkillSpec) (hc : c ∈ colors)
    (hs : s ∈ skillsOfColor cat c) : s ∈ skillsOfColors cat colors := by
  unfold skillsOfColors
  rw [List.mem_flatten]
  exact ⟨skillsOfColor cat c, List.mem_map.mpr ⟨c, hc, rfl⟩, hs⟩

/-- Pure-list value of `candidatesFromColors` when every color is a catalog
key: per color, the optional preferred-block filter then the used-name
filter, concatenated in color order. -/
def candidatesOf (cat : SkillCatalog) (colors : List String)
    (pref : Option (List String)) (idx : Nat) (used : List String) :
    List SkillSpec :=
  (colors.map (fun c =>
    ((match pref with
      | some pbs =>
        if idx < pbs.length then
          (skillsOfColor cat c).filter (fun s => s.blockType = pbs.getD idx "")
        else skillsOfColor cat c
      | none => skillsOfColor cat c) : List SkillSpec).filter
      (fun s => !(used.contains s.name)))).flatten

/-- When every queried color is present in the catalog,
`candidatesFromColors` succeeds and computes `candidatesOf`. -/
theorem candidatesFromColors_eq (cat : SkillCatalog) (colors : List String)
    (pref : Option (List String)) (idx : Nat) (used : List String)
    (hkeys : ∀ c ∈ colors, (cat.entries.find? (fun p => p.1 = c)).isSome) :
    candidatesFromColors cat colors pref idx used =
      .ok (candidatesOf cat colors pref idx used) := by
  induction colors with
  | nil => rfl
  | cons c cs ih =>
    have hih := ih (fun c2 hc2 => hkeys c2 (List.mem_cons_of_mem _ hc2))
    have hkc := hkeys c (List.mem_cons_self c cs)
    rcases hfind : cat.entries.find? (fun p => p.1 = c) with _ | pair
    · rw [hfind] at hkc; exact absurd hkc (by simp)
    · have hcol : skillsOfColor cat c = pair.2 := by
        unfold skillsOfColor; rw [hfind]
      cases pref with
      | none =>
        simp only [candidatesFromColors, getSkillsByColor, hfind, hih,
          candidatesOf, List.map_cons, List.flatten_cons, hcol]
      | some pbs =>
        simp only [candidatesFromColors, getSkillsByColor, hfind, hih,
          candidatesOf, List.map_cons, List.flatten_cons, hcol]

/-- Every candidate comes from one of the queried colors and is unused. -/
theorem mem_candidatesOf (cat : SkillCatalog) (colors : List String)
    (pref : Option (List String)) (idx : Nat) (used : List String)
    (s : SkillSpec) (hs : s ∈ candidatesOf cat colors pref idx used) :
    (∃ c ∈ colors, s ∈ skillsOfColor cat c) ∧
      used.contains s.name = false := by
  unfold candidatesOf at hs
  rw [List.mem_flatten] at hs
  obtain ⟨l, hl, hsl⟩ := hs
  rw [List.mem_map] at hl
  obtain ⟨c, hc, rfl⟩ := hl
  rw [List.mem_filter] at hsl
  obtain ⟨hs1, hs2⟩ := hsl
  refine ⟨⟨c, hc, ?_⟩, by simpa using hs2⟩
  cases pref with
  | none => exact hs1
  | some pbs =>
    simp only [] at hs1
    by_cases hidx : idx < pbs.length
    · rw [if_pos hidx] at hs1
      exact (List.mem_filter.mp hs1).1
    · rw [if_neg hidx] at hs1
      exact hs1

/-- With no preferred-block filter, the candidates are exactly the unused
skills across the queried colors. -/
theorem candidatesOf_none (cat : SkillCatalog) (colors : List String)
    (idx : Nat) (used : List String) :
    candidatesOf cat colors none idx used =
      (skillsOfColors cat colors).filter
        (fun s => !(used.contains s.name)) := by
  unfold candidatesOf skillsOfColors
  induction colors with
  | nil => rfl
  | cons c cs ih =>
    simp only [List.map_cons, List.flatten_cons, List.filter_append, ih]

/-- The per-step target colors are always among the ordered colors. -/
theorem targetColorsFor_subset (ordered : List String) (sc i : Nat) :
    targetColorsFor ordered sc i ⊆ ordered := by
  unfold targetColorsFor
  split_ifs with h1 h2 h3
  · intro x hx
    simp only [List.mem_singleton] at hx
    subst hx
    simpa using h1.2
  · intro x hx
    simp only [List.mem_singleton] at hx
    subst hx
    simpa using h2.2
  · exact fun x hx => List.drop_subset _ _ (List.take_subset _ _ hx)
  · exact List.drop_subset _ _

/-- The progression filtered by availability is a subset of the available
colors. -/
theorem orderedColors_subset (avail : List String) :
    (colorProgression.filter (fun c => avail.contains c)) ⊆ avail := by
  intro c hc
  rw [List.mem_filter] at hc
  simpa using hc.2

/-- If the used names are fewer than the (distinctly named) available skills,
some available skill is still unused. -/
theorem filter_unused_ne_nil (avail : List SkillSpec) (usedNames : List String)
    (hnodup : (avail.map (fun s => s.name)).Nodup)
    (hlt : usedNames.length < avail.length) :
    avail.filter (fun s => !(usedNames.contains s.name)) ≠ [] := by
  intro hempty
  have hall : ∀ s ∈ avail, s.name ∈ usedNames := by
    intro s hs
    by_contra hn
    have hmem : s ∈ avail.filter (fun s => !(usedNames.contains s.name)) := by
      rw [List.mem_filter]
      exact ⟨hs, by simpa using hn⟩
    rw [hempty] at hmem
    exact absurd hmem (List.not_mem_nil s)
  have hsub : (avail.map (fun s => s.name)) ⊆ usedNames := by
    intro a ha
    obtain ⟨s, hs, rfl⟩ := List.mem_map.mp ha
    exact hall s hs
  have hle := (hnodup.subperm hsub).length_le
  rw [List.length_map] at hle
  omega

/-- Core invariant of the selection loop: when every permitted color is a
catalog key and the skills across the permitted colors have pairwise
distinct names, each iteration appends exactly one unused skill (the primary
pick when it exists, else the fallback, which cannot be empty while unused
skills remain), so the loop succeeds and grows the selection by exactly one
per remaining index. -/
theorem selectLoop_spec (cat : SkillCatalog) (avail ordered : List String)
    (stepCount : Nat) (pref : Option (List String)) (rng : Nat → Nat)
    (hkeys : ∀ c ∈ avail, (cat.entries.find? (fun p => p.1 = c)).isSome)
    (hord : ordered ⊆ avail)
    (hnodup : ((skillsOfColors cat avail).map (fun s => s.name)).Nodup) :
    ∀ (idxs : List Nat) (sel : List SkillSpec),
      (∀ s ∈ sel, s ∈ skillsOfColors cat avail) →
      ((sel.map (fun s => s.name)).Nodup) →
      sel.length + idxs.length ≤ (skillsOfColors cat avail).length →
      ∃ l, selectLoop cat avail ordered stepCount pref rng idxs sel =
        .ok l ∧ l.length = sel.length + idxs.length := by
  intro idxs
  induction idxs with
  | nil =>
    intro sel _ _ _
    exact ⟨sel, rfl, by simp⟩
  | cons i rest ih =>
    intro sel hselmem hselnodup hsellen
    have htarget : targetColorsFor ordered stepCount i ⊆ avail :=
      fun c hc => hord (targetColorsFor_subset ordered stepCount i hc)
    have hkt : ∀ c ∈ targetColorsFor ordered stepCount i,
        (cat.entries.find? (fun p => p.1 = c)).isSome :=
      fun c hc => hkeys c (htarget hc)
    have hprim : selectSkillFromColors cat
        (targetColorsFor ordered stepCount i) pref i sel (rng (2*i)) =
        (if (candidatesOf cat (targetColorsFor ordered stepCount i) pref i
            (sel.map (fun s => s.name))).isEmpty then .ok none
          else .ok (some (randomChoice (candidatesOf cat
            (targetColorsFor ordered stepCount i) pref i
            (sel.map (fun s => s.name))) (rng (2*i))))) := by
      unfold selectSkillFromColors
      rw [candidatesFromColors_eq cat _ pref i _ hkt]
    have extendInv : ∀ skill : SkillSpec,
        skill ∈ skillsOfColors cat avail →
        (sel.map (fun s => s.name)).contains skill.name = false →
        ∃ l, selectLoop cat avail ordered stepCount pref rng rest
          (sel ++ [skill]) = .ok l ∧
          l.length = sel.length + (i :: rest).length := by
      intro skill hskmem hskunused
      have hnotmem : skill.name ∉ sel.map (fun s => s.name) := by
        intro hmem
        rw [show ((sel.map (fun s => s.name)).contains skill.name) =
          decide (skill.name ∈ sel.map (fun s => s.name)) from by
            simp [List.contains_iff_exists_mem_beq, List.mem_map]
          ] at hskunused
        simp [hmem] at hskunused
      have h1 : ∀ s ∈ sel ++ [skill], s ∈ skillsOfColors cat avail := by
        intro s hs
        rcases List.mem_append.mp hs with hs | hs
        · exact hselmem s hs
        · rw [List.mem_singleton] at hs
          subst hs
          exact hskmem
      have h2 : ((sel ++ [skill]).map (fun s => s.name)).Nodup := by
        rw [List.map_append, List.nodup_append]
        refine ⟨hselnodup, List.nodup_singleton _, ?_⟩
        intro a ha
        simp only [List.map_cons, List.map_nil, List.mem_singleton]
        intro heq
        subst heq
        exact hnotmem ha
      have h3 : (sel ++ [skill]).length + rest.length ≤
          (skillsOfColors cat avail).length := by
        rw [List.length_append]
        simp only [List.length_cons] at hsellen
        simp only [List.length_cons, List.length_nil]
        omega
      obtain ⟨l, hl, hlen⟩ := ih (sel ++ [skill]) h1 h2 h3
      refine ⟨l, hl, ?_⟩
      rw [hlen, List.length_append]
      simp only [List.length_cons, List.length_nil]
      omega
    rw [selectLoop]
    by_cases hempty : (candidatesOf cat (targetColorsFor ordered stepCount i)
        pref i (sel.map (fun s => s.name))).isEmpty = true
    · -- primary empty: the fallback over all available colors must hit
      rw [hprim]
      simp only [hempty, if_true]
      have hfb : selectFallbackSkill cat avail sel (rng (2*i+1)) =
          (if (candidatesOf cat avail none 0
              (sel.map (fun s => s.name))).isEmpty then .ok none
            else .ok (some (randomChoice (candidatesOf cat avail none 0
              (sel.map (fun s => s.name))) (rng (2*i+1))))) := by
        unfold selectFallbackSkill
        rw [candidatesFromColors_eq cat _ none 0 _ hkeys]
      have hfbne : candidatesOf cat avail none 0
          (sel.map (fun s => s.name)) ≠ [] := by
        rw [candidatesOf_none]
        apply filter_unused_ne_nil _ _ hnodup
        rw [List.length_map]
        simp only [List.length_cons] at hsellen
        omega
      have hfbe : (candidatesOf cat avail none 0
          (sel.map (fun s => s.name))).isEmpty = false := by
        rw [List.isEmpty_eq_false]
        exact hfbne
      rw [hfb]
      simp only [hfbe, Bool.false_eq_true, if_false]
      have hchoice := randomChoice_mem _ (rng (2*i+1)) hfbne
      have hcm := mem_candidatesOf cat avail none 0 _ _ hchoice
      obtain ⟨⟨c, hc, hsc⟩, hunused⟩ := hcm
      exact extendInv _ (mem_skillsOfColors cat avail c _ hc hsc) hunused
    · -- primary non-empty: one candidate of the target colors is chosen
      rw [hprim]
      simp only [hempty, Bool.false_eq_true, if_false]
      have hne : candidatesOf cat (targetColorsFor ordered stepCount i) pref i
          (sel.map (fun s => s.name)) ≠ [] := by
        intro hnil
        rw [hnil] at hempty
        exact hempty rfl
      have hchoice := randomChoice_mem _ (rng (2*i)) hne
      have hcm := mem_candidatesOf cat _ pref i _ _ hchoice
      obtain ⟨⟨c, hc, hsc⟩, hunused⟩ := hcm
      exact extendInv _ (mem_skillsOfColors cat avail c _ (htarget hc) hsc)
        hunused

/-- C1 amended: `select_skills_for_lesson` does NOT always return exactly
`step_count` skills (see the counterexample): when the permitted categories
hold fewer distinct skills than requested it silently returns a shorter
sequence with no `SkillSelectionError` (the error is raised only when an
internal exception occurs, e.g. a permitted color missing from the catalog).
What does hold: whenever every permitted color is a catalog key, the skills
across the permitted colors have pairwise distinct names, and there are at
least `step_count` of them, selection succeeds with exactly `step_count`
skills. -/
theorem c1_sufficient_catalog_exact (cat : SkillCatalog) (difficulty : Rat)
    (stepCount : Nat) (pref : Option (List String)) (rng : Nat → Nat)
    (hkeys : ∀ c ∈ getColorsForDifficulty difficulty,
      (cat.entries.find? (fun p => p.1 = c)).isSome)
    (hnodup : ((skillsOfColors cat (getColorsForDifficulty difficulty)).map
      (fun s => s.name)).Nodup)
    (hcount : stepCount ≤
      (skillsOfColors cat (getColorsForDifficulty difficulty)).length) :
    okLength (selectSkillsForLesson cat difficulty stepCount pref rng) =
      some stepCount := by
  unfold selectSkillsForLesson selectProgressiveSkills
  obtain ⟨l, hl, hlen⟩ := selectLoop_spec cat
    (getColorsForDifficulty difficulty)
    (colorProgression.filter (fun c =>
      (getColorsForDifficulty difficulty).contains c))
    stepCount pref rng hkeys (orderedColors_subset _) hnodup
    (List.range stepCount) [] (by simp) (by simp) (by simpa using hcount)
  rw [hl]
  simp only [okLength, hlen, List.length_nil, List.length_range,
    Nat.zero_add]

/-- Witness for `c1_sufficient_catalog_exact`: a two-skill catalog at
difficulty 0.2 yields exactly the requested two skills. -/
theorem c1_sufficient_catalog_exact_witness :
    ((∀ c ∈ getColorsForDifficulty (1/5),
      (twoSkillCatalog.entries.find? (fun p => p.1 = c)).isSome) ∧
    (((skillsOfColors twoSkillCatalog (getColorsForDifficulty (1/5))).map
      (fun s => s.name)).Nodup) ∧
    (2 ≤ (skillsOfColors twoSkillCatalog
      (getColorsForDifficulty (1/5))).length)) ∧
    okLength (selectSkillsForLesson twoSkillCatalog (1/5) 2 none
      (fun _ => 0)) = some 2 := by
  have hc : getColorsForDifficulty (1/5) = ["Green", "Blue"] := by
    norm_num [getColorsForDifficulty]
  have h1 : ∀ c ∈ getColorsForDifficulty (1/5),
      (twoSkillCatalog.entries.find? (fun p => p.1 = c)).isSome := by
    rw [hc]; decide
  have h2 : ((skillsOfColors twoSkillCatalog
      (getColorsForDifficulty (1/5))).map (fun s => s.name)).Nodup := by
    rw [hc]; decide
  have h3 : 2 ≤ (skillsOfColors twoSkillCatalog
      (getColorsForDifficulty (1/5))).length := by
    rw [hc]; decide
  exact ⟨⟨h1, h2, h3⟩,
    c1_sufficient_catalog_exact twoSkillCatalog (1/5) 2 none (fun _ => 0)
      h1 h2 h3⟩
